import Mathlib

/-!
Verification development for the HttpWeChatBot repository
(`wechatbot_client`): a shallow embedding in Lean 4 of the
action-dispatch layer (`action_manager/manager.py`), the raw-message
normalizer (`com_wechat/message.py`) and the WebSocket gateway's
access-token check (`wechat/wechat.py`), together with theorems about
the claims of the specification.

Conventions of the embedding:
* Python exceptions are modelled by the `PyExn` type; fallible code
  returns `Except PyExn α`.
* Python runtime values (strings, ints, dicts, lists, `ActionResponse`
  objects) are modelled by the `PyVal` type.
* Classes that the sources use but whose definitions are not part of
  the three source files (the `ActionResponse` model, the raw
  `WechatMessage` model, the driver, the file manager, the
  `WxType`/`AppType` constant tables, `get_auth_bearer`) are modelled
  from the specification; each such definition says so in its doc
  comment.
-/

/-- Python exception values raised by the embedded code.  `SystemExit`
(`exit(0)`) is not an `Exception` in Python and is modelled separately
by `ExecResult.exit`. -/
inductive PyExn where
  /-- `AttributeError`, carrying the missing attribute's name. -/
  | attributeError (name : String)
  /-- `UnboundLocalError`, carrying the unassigned local's name. -/
  | unboundLocalError (name : String)
  /-- `TypeError`. -/
  | typeError (msg : String)
  /-- `KeyError` on a dict subscript. -/
  | keyError (key : String)
  /-- `ValueError` (e.g. `int()` on a non-numeric string). -/
  | valueError (msg : String)
  /-- `xml.etree.ElementTree.ParseError`. -/
  | xmlParseError
  /-- an error raised inside the COM automation layer. -/
  | comError (msg : String)
  deriving Repr, DecidableEq

/-- Python runtime values as used by the embedded code: primitives,
dicts, lists, and `ActionResponse` objects.  The `actionResponse`
constructor is modelled from the spec: "ActionResponse: status
(ok/error category), numeric result code, human-readable message,
opaque result payload (mapping or null)" — the class itself is defined
in `action_manager/action.py`, which is not among the source files;
its fields follow the spec and the keyword arguments used at the call
sites in `manager.py` (`status=`, `retcode=`, `msg=`, `data=`). -/
inductive PyVal where
  | null
  | str (s : String)
  | int (n : Int)
  | bool (b : Bool)
  | dict (fields : List (String × PyVal))
  | list (elems : List PyVal)
  | actionResponse (status : PyVal) (retcode : Option Int) (msg : Option String)
      (data : PyVal)
  deriving Repr

/-- Status field of an `ActionResponse` object (`null` on other values). -/
def PyVal.statusOf : PyVal → PyVal
  | .actionResponse s _ _ _ => s
  | _ => .null

/-- Data field of an `ActionResponse` object (`null` on other values). -/
def PyVal.dataOf : PyVal → PyVal
  | .actionResponse _ _ _ d => d
  | _ => .null

/-- Python dict subscript `d[k]`: `KeyError` when the key is absent,
`TypeError` when the value is not a dict. -/
def pySubscript (v : PyVal) (k : String) : Except PyExn PyVal :=
  match v with
  | .dict fields =>
      match fields.lookup k with
      | some x => .ok x
      | none => .error (.keyError k)
  | _ => .error (.typeError "object is not subscriptable")

example : pySubscript (.dict [("WxId", .str "abc")]) "WxId" = .ok (.str "abc") := rfl

example : pySubscript (.dict [("WxId", .str "abc")]) "Name" =
    .error (.keyError "Name") := rfl

example : PyVal.int 200 ≠ PyVal.str "ok" := by simp

example : PyVal.str "a" ≠ PyVal.str "b" := by simp

/-- Python `\s` on the ASCII range: space, tab, newline, carriage
return, vertical tab, form feed. -/
def isPySpace (c : Char) : Bool :=
  c = ' ' || c = '\t' || c = '\n' || c = '\r' || c.val = 11 || c.val = 12

/-- Is `sub` a contiguous sublist of the stream? -/
def charsContain (sub : List Char) : List Char → Bool
  | [] => sub.isEmpty
  | c :: rest => sub.isPrefixOf (c :: rest) || charsContain sub rest

/-- Python `sub in s` substring test. -/
def strContains (s sub : String) : Bool :=
  charsContain sub.toList s.toList

example : strContains "123@chatroom" "@chatroom" = true := by decide
example : strContains "wxid_123" "@chatroom" = false := by decide

/-! ## XML model

The handlers in `com_wechat/message.py` parse payloads with
`xml.etree.ElementTree.fromstring` and navigate them with
`Element.find("./tag")`, `Element.text` and `Element.attrib`.  The
model below implements a recursive-descent parser for the XML subset
those payloads use (tags, attributes, nested elements, text); any
input it cannot parse is a `ParseError`, matching how the handlers
treat malformed payloads.  As in ElementTree, an element's `text` is
the character data between its start tag and its first child (and
`None` when that is empty), and text after a child element (the
child's `tail`) is not part of the parent's `text`. -/

/-- An XML element: tag name, attributes, leading text, children. -/
inductive Xml where
  | elem (tag : String) (attrs : List (String × String)) (text : Option String)
      (children : List Xml)
  deriving Repr

/-- Tag name of an element. -/
def Xml.tag : Xml → String
  | .elem t _ _ _ => t

/-- Attribute list of an element (`Element.attrib`). -/
def Xml.attrs : Xml → List (String × String)
  | .elem _ a _ _ => a

/-- `Element.text`: `none` models Python `None`. -/
def Xml.text : Xml → Option String
  | .elem _ _ t _ => t

/-- Child elements of an element. -/
def Xml.children : Xml → List Xml
  | .elem _ _ _ c => c

/-- Characters allowed in a tag or attribute name by the model. -/
def isXmlNameChar (c : Char) : Bool :=
  c.isAlphanum || c = '_' || c = '-' || c = ':' || c = '.'

/-- Longest name prefix of the character stream. -/
def takeXmlName (cs : List Char) : String × List Char :=
  (String.mk (cs.takeWhile isXmlNameChar), cs.dropWhile isXmlNameChar)

/-- `none` for empty character data, `some` otherwise (ElementTree
reports empty `text` as `None`). -/
def optText (cs : List Char) : Option String :=
  if cs.isEmpty then none else some (String.mk cs)

mutual

/-- Parse the attribute list of a start tag, up to (but not including)
`>` or `/>`. -/
def parseXmlAttrs : Nat → List Char → Except PyExn (List (String × String) × List Char)
  | 0, _ => .error .xmlParseError
  | Nat.succ fuel, cs =>
    let cs := cs.dropWhile isPySpace
    match cs with
    | '>' :: _ => .ok ([], cs)
    | '/' :: '>' :: _ => .ok ([], cs)
    | c :: _ =>
      if isXmlNameChar c then
        let (name, cs1) := takeXmlName cs
        match cs1.dropWhile isPySpace with
        | '=' :: cs2 =>
          match cs2.dropWhile isPySpace with
          | q :: cs3 =>
            if q = '"' || q = '\'' then
              let v := cs3.takeWhile (· ≠ q)
              match cs3.dropWhile (· ≠ q) with
              | _ :: cs4 =>
                match parseXmlAttrs fuel cs4 with
                | .ok (rest, cs5) => .ok ((name, String.mk v) :: rest, cs5)
                | .error e => .error e
              | [] => .error .xmlParseError
            else .error .xmlParseError
          | [] => .error .xmlParseError
        | _ => .error .xmlParseError
      else .error .xmlParseError
    | [] => .error .xmlParseError

/-- Parse one element, starting at its `<`. -/
def parseXmlElem : Nat → List Char → Except PyExn (Xml × List Char)
  | 0, _ => .error .xmlParseError
  | Nat.succ fuel, cs =>
    match cs with
    | '<' :: cs1 =>
      let (name, cs2) := takeXmlName cs1
      if name = "" then .error .xmlParseError
      else
        match parseXmlAttrs fuel cs2 with
        | .error e => .error e
        | .ok (attrs, cs3) =>
          match cs3 with
          | '/' :: '>' :: rest => .ok (.elem name attrs none [], rest)
          | '>' :: rest =>
            match parseXmlContent fuel name rest with
            | .error e => .error e
            | .ok (txt, kids, rest2) => .ok (.elem name attrs txt kids, rest2)
          | _ => .error .xmlParseError
    | _ => .error .xmlParseError

/-- Parse element content up to and including the matching closing
tag.  Returns the leading character data, the child elements, and the
remaining stream.  In recursive calls after a child element the
leading character data is that child's `tail` and is discarded by the
caller, as ElementTree does not attach it to the parent's `text`. -/
def parseXmlContent : Nat → String → List Char →
    Except PyExn (Option String × List Xml × List Char)
  | 0, _, _ => .error .xmlParseError
  | Nat.succ fuel, name, cs =>
    let txt := cs.takeWhile (· ≠ '<')
    let cs1 := cs.dropWhile (· ≠ '<')
    match cs1 with
    | '<' :: '/' :: cs2 =>
      let (cname, cs3) := takeXmlName cs2
      match cs3.dropWhile isPySpace with
      | '>' :: rest =>
        if cname = name then .ok (optText txt, [], rest) else .error .xmlParseError
      | _ => .error .xmlParseError
    | '<' :: _ =>
      match parseXmlElem fuel cs1 with
      | .error e => .error e
      | .ok (child, rest) =>
        match parseXmlContent fuel name rest with
        | .error e => .error e
        | .ok (_tail, kids, rest2) => .ok (optText txt, child :: kids, rest2)
    | _ => .error .xmlParseError

end

/-- `xml.etree.ElementTree.fromstring`: parse a whole document,
allowing surrounding whitespace only. -/
def ET_fromstring (s : String) : Except PyExn Xml :=
  match parseXmlElem (2 * s.length + 4) (s.toList.dropWhile isPySpace) with
  | .error e => .error e
  | .ok (x, rest) =>
    if (rest.dropWhile isPySpace).isEmpty then .ok x else .error .xmlParseError

/-- `Element.find("./tag")`: first **child** with the given tag (the
`./tag` path never matches the element itself). -/
def xmlFindChild (x : Xml) (tag : String) : Option Xml :=
  x.children.find? (fun c => c.tag = tag)

/-- `Element.attrib.get(k)`. -/
def xmlAttrGet (x : Xml) (k : String) : Option String :=
  (x.attrs.lookup k)

/-- `Element.attrib[k]`: `KeyError` when absent. -/
def xmlAttrSub (x : Xml) (k : String) : Except PyExn String :=
  match x.attrs.lookup k with
  | some v => .ok v
  | none => .error (.keyError k)

example :
    ET_fromstring "<atuserlist>wx_alice</atuserlist>" =
      .ok (.elem "atuserlist" [] (some "wx_alice") []) := by rfl

example : ET_fromstring "<bad" = .error .xmlParseError := by rfl

/-! ## OneBot-12 message segments and events

The `Message`/`MessageSegment` and event classes live in the
`onebot12` package, which is not among the source files; the shapes
below are modelled from the spec ("MessageContent: an ordered sequence
of typed segments (text, mention, mention-all, image, voice, video,
file, link, app-share, location, card, reply-reference)";
"NormalizedEvent: closed set of variants ...") and from the
constructor keyword arguments used in `com_wechat/message.py`.  Two
fields of the Python events are left out of the model: `id` (a fresh
`uuid4` per normalization, i.e. nondeterministic and mentioned by no
claim) and `alt_message` (a string rendering produced by the missing
`Message.__str__`). -/

/-- Modelled from the spec: one typed message segment. -/
inductive MessageSegment where
  | text (s : String)
  | mention (user_id : String)
  | mention_all
  | image (file_id : String)
  | video (file_id : String)
  | file (file_id : String)
  | card (v3 v4 head_url province city sex : String)
  | location (latitude longitude title content : String)
  | link (tittle des url image : String)
  | app (app_id title url : String)
  | reply (message_id user_id : String)
  deriving Repr, DecidableEq

/-- Modelled from the spec: the closed set of normalized events
produced by `com_wechat/message.py` (without the `id` and
`alt_message` presentation fields, see above). -/
inductive Event where
  | privateMessage (time : Int) (self : String) (message_id : String)
      (message : List MessageSegment) (user_id : String)
  | groupMessage (time : Int) (self : String) (message_id : String)
      (message : List MessageSegment) (user_id : String) (group_id : String)
  | friendRequest (time : Int) (self : String)
      (user_id v3 v4 nickname content country province city : String)
  | groupMessageDelete (time : Int) (self : String) (message_id : String)
      (group_id user_id operator_id : String)
  | privateMessageDelete (time : Int) (self : String) (message_id : String)
  | groupRedBagNotice (time : Int) (self : String) (user_id group_id : String)
  | privateRedBagNotice (time : Int) (self : String) (user_id : String)
  | groupPokeNotice (time : Int) (self : String) (user_id group_id : String)
  | privatePokeNotice (time : Int) (self : String) (user_id : String)
  | groupFileNotice (time : Int) (self : String) (message_id : Int)
      (user_id group_id file_name : String) (file_length : Int) (md5 : String)
  | privateFileNotice (time : Int) (self : String) (message_id : Int)
      (user_id file_name : String) (file_length : Int) (md5 : String)
  | groupAnnouncementNotice (time : Int) (self : String)
      (group_id user_id text : String)
  deriving Repr, DecidableEq

/-- Is the event a delete/recall event? -/
def Event.isDeleteEvent : Event → Bool
  | .groupMessageDelete .. => true
  | .privateMessageDelete .. => true
  | _ => false

/-- Modelled from the spec: the raw native message
(`com_wechat/model.py` is not among the source files).  Fields follow
the spec's RawMessage — "discriminator `type` (integer tag), sender
identifier, originating-user identifier, raw text/XML payload,
timestamp, message id, optional file-path/sign fields for media" —
and the attribute names used by the handlers
(`msg.type`, `msg.sender`, `msg.wxid`, `msg.message`, `msg.extrainfo`,
`msg.timestamp`, `msg.msgid`, `msg.self`, `msg.filepath`, `msg.sign`,
`msg.thumb_path`). -/
structure WechatMessage where
  type : Int
  sender : String
  wxid : String
  message : String
  extrainfo : String
  timestamp : Int
  msgid : Int
  self : String
  filepath : String
  sign : String
  thumb_path : String
  deriving Repr, DecidableEq

/-! Modelled from the spec: the `WxType` integer tags
(`com_wechat/type.py` is not among the source files; the spec only
says the discriminator is an integer tag).  The values below are the
standard WeChat hook type codes; for the claims all that matters is
that they are the eleven distinct keys registered via `@add_handler`
in `com_wechat/message.py`. -/

/-- Modelled from the spec: `WxType.TEXT_MSG`. -/
def WxType_TEXT_MSG : Int := 1
/-- Modelled from the spec: `WxType.IMAGE_MSG`. -/
def WxType_IMAGE_MSG : Int := 3
/-- Modelled from the spec: `WxType.VOICE_MSG`. -/
def WxType_VOICE_MSG : Int := 34
/-- Modelled from the spec: `WxType.FRIEND_REQUEST`. -/
def WxType_FRIEND_REQUEST : Int := 37
/-- Modelled from the spec: `WxType.CARD_MSG`. -/
def WxType_CARD_MSG : Int := 42
/-- Modelled from the spec: `WxType.VIDEO_MSG`. -/
def WxType_VIDEO_MSG : Int := 43
/-- Modelled from the spec: `WxType.EMOJI_MSG`. -/
def WxType_EMOJI_MSG : Int := 47
/-- Modelled from the spec: `WxType.LOCATION_MSG`. -/
def WxType_LOCATION_MSG : Int := 48
/-- Modelled from the spec: `WxType.APP_MSG`. -/
def WxType_APP_MSG : Int := 49
/-- Modelled from the spec: `WxType.SYSTEM_MSG`. -/
def WxType_SYSTEM_MSG : Int := 10000
/-- Modelled from the spec: `WxType.GROUP_SYS_MSG`. -/
def WxType_GROUP_SYS_MSG : Int := 10002

/-- The keys of `HANDLE_DICT`: the eleven message types registered via
`@add_handler` in `com_wechat/message.py`. -/
def registeredTypes : List Int :=
  [WxType_TEXT_MSG, WxType_IMAGE_MSG, WxType_VOICE_MSG, WxType_FRIEND_REQUEST,
   WxType_CARD_MSG, WxType_VIDEO_MSG, WxType_EMOJI_MSG, WxType_LOCATION_MSG,
   WxType_APP_MSG, WxType_SYSTEM_MSG, WxType_GROUP_SYS_MSG]

/-! ## The mention splitter of `handle_text`

`handle_text` runs `re.split(r"(@[^@\s]+\s)", msg.message)`: the
pattern matches an `@`, one or more characters that are neither `@`
nor whitespace, and a single whitespace character (which is part of
the match).  Because the repetition consumes no whitespace, the
pattern matches at a position iff an `@` is followed by a nonempty
run of non-`@`-non-space characters and then a space; `re.split` with
a capturing group returns the non-matching gaps interleaved with the
matches (gaps contain no match, so the per-piece `re.search` in the
loop is equivalent to the `Bool` tag below). -/

/-- If the stream starts with a mention marker `@[^@\s]+\s`, return
the marker and the rest. -/
def markerSplit (cs : List Char) : Option (List Char × List Char) :=
  match cs with
  | '@' :: rest =>
    let run := rest.takeWhile (fun c => !(c = '@' || isPySpace c))
    let rest2 := rest.drop run.length
    if run.isEmpty then none
    else
      match rest2 with
      | c :: rs => if isPySpace c then some ('@' :: run ++ [c], rs) else none
      | [] => none
  | _ => none

/-- Walk the stream accumulating the current gap (reversed); emit
`(false, gap)` and `(true, marker)` pieces as `re.split` does. -/
def reSplitAux : Nat → List Char → List Char → List (Bool × String)
  | _, acc, [] => [(false, String.mk acc.reverse)]
  | 0, acc, cs => [(false, String.mk (acc.reverse ++ cs))]
  | Nat.succ fuel, acc, c :: cs =>
    match markerSplit (c :: cs) with
    | some (marker, rest) =>
      (false, String.mk acc.reverse) :: (true, String.mk marker) ::
        reSplitAux fuel [] rest
    | none => reSplitAux fuel (c :: acc) cs

/-- `re.split(r"(@[^@\s]+\s)", s)`, each piece tagged with whether it
is a marker (= whether `re.search` finds the pattern in it). -/
def reSplitMention (s : String) : List (Bool × String) :=
  reSplitAux (s.length + 1) [] s.toList

example : reSplitMention "@Alice hello" =
    [(false, ""), (true, "@Alice "), (false, "hello")] := by rfl

example : reSplitMention "hi there" = [(false, "hi there")] := by rfl

example : reSplitMention "@Alice hi @Bob yo" =
    [(false, ""), (true, "@Alice "), (false, "hi "), (true, "@Bob "),
     (false, "yo")] := by rfl

/-- The segment-building loop of `handle_text`: walk the split pieces
in order; a gap becomes a text segment; a marker pops the next entry
of `at_list` (`notify@all` becomes mention-all, otherwise a mention);
when `at_list` is exhausted (`IndexError`), the rest of the pieces are
joined into one text segment and the loop breaks. -/
def buildAtMessage : List (Bool × String) → List String → List MessageSegment
  | [], _ => []
  | (false, s) :: rest, ats => .text s :: buildAtMessage rest ats
  | (true, s) :: rest, ats =>
    match ats with
    | [] => [.text (String.join (s :: rest.map (·.2)))]
    | a :: ats' =>
      (if a = "notify@all" then .mention_all else .mention a) ::
        buildAtMessage rest ats'

/-- `MessageHandler.handle_text` (`com_wechat/message.py`).  The
mention branch never assigns the local `message` (only the branch
without mentions does), yet the `GroupMessageEvent` it constructs
passes `alt_message=str(message)`; evaluating that argument raises
`UnboundLocalError`, which the model returns after computing the
segment list exactly as the loop does. -/
def handle_text (msg : WechatMessage) : Except PyExn (Option Event) :=
  match ET_fromstring msg.extrainfo with
  | .error e => .error e
  | .ok xml_obj =>
    match xmlFindChild xml_obj "atuserlist" with
    | none =>
      let message := [MessageSegment.text msg.message]
      if strContains msg.sender "@chatroom" then
        .ok (some (.groupMessage msg.timestamp msg.self (toString msg.msgid)
          message msg.wxid msg.sender))
      else
        .ok (some (.privateMessage msg.timestamp msg.self (toString msg.msgid)
          message msg.wxid))
    | some at_xml =>
      match at_xml.text with
      | none => .error (.attributeError "split")
      | some t =>
        let at_list := t.splitOn ","
        let at_list := match at_list with
          | "" :: rest => rest
          | l => l
        let msg_list := reSplitMention msg.message
        let new_msg := buildAtMessage msg_list at_list
        let _ := new_msg
        .error (.unboundLocalError "message")

/-! ## Path and string helpers used by the media handlers -/

/-- Last path component (`Path(...).name`). -/
def pyBaseName (s : String) : String :=
  String.mk ((s.toList.reverse.takeWhile (· ≠ '/')).reverse)

/-- `Path(...).parent` as a string (`"."` when there is no directory
part). -/
def pyParent (s : String) : String :=
  if strContains s "/" then
    String.mk (s.toList.take (s.toList.length -
      ((s.toList.reverse.takeWhile (· ≠ '/')).length + 1)))
  else "."

/-- `Path(...).stem`: the last component without its final suffix
(a leading dot does not start a suffix). -/
def pyStem (s : String) : String :=
  let b := pyBaseName s
  let cs := b.toList
  let afterDot := (cs.reverse.takeWhile (· ≠ '.')).length
  if afterDot = cs.length then b
  else if cs.length - afterDot - 1 = 0 then b
  else String.mk (cs.take (cs.length - afterDot - 1))

example : pyStem "C:/img/abc123.dat" = "abc123" := by rfl
example : pyStem "c.tar.gz" = "c.tar" := by rfl

/-- Value of a hex digit. -/
def hexDigitVal (c : Char) : Option Nat :=
  if c.isDigit then some (c.toNat - '0'.toNat)
  else if 'a' ≤ c ∧ c ≤ 'f' then some (c.toNat - 'a'.toNat + 10)
  else if 'A' ≤ c ∧ c ≤ 'F' then some (c.toNat - 'A'.toNat + 10)
  else none

/-- `urllib.parse.unquote`, modelled byte-per-character on the ASCII
range: `%XX` hex escapes are decoded, everything else is kept. -/
def pyUnquoteAux : List Char → List Char
  | [] => []
  | '%' :: h1 :: h2 :: rest =>
    match hexDigitVal h1, hexDigitVal h2 with
    | some v1, some v2 => Char.ofNat (16 * v1 + v2) :: pyUnquoteAux rest
    | _, _ => '%' :: pyUnquoteAux (h1 :: h2 :: rest)
  | c :: rest => c :: pyUnquoteAux rest

/-- `urllib.parse.unquote` on strings. -/
def pyUnquote (s : String) : String :=
  String.mk (pyUnquoteAux s.toList)

example : pyUnquote "http%3A%2F%2Fx" = "http://x" := by rfl

/-- Python `int(s)`: optional surrounding whitespace, optional sign,
one or more digits; anything else is a `ValueError` (`none`). -/
def pyInt (s : String) : Option Int :=
  let cs := (s.toList.dropWhile isPySpace).reverse.dropWhile isPySpace |>.reverse
  let (sign, digits) :=
    match cs with
    | '-' :: rest => ((-1 : Int), rest)
    | '+' :: rest => ((1 : Int), rest)
    | l => ((1 : Int), l)
  if digits.isEmpty ∨ ¬ digits.all Char.isDigit then none
  else some (sign * (digits.foldl (fun acc c => 10 * acc + (c.toNat - '0'.toNat)) 0 : Nat))

example : pyInt "57" = some 57 := by rfl
example : pyInt " 5 " = some 5 := by rfl
example : pyInt "x5" = none := by rfl

/-! ## The collaborators of `MessageHandler`

`MessageHandler` holds three media directories and a `FileManager`
(`file_manager` package, not among the source files).  The spec models
the latter as the artifact cache: "cacheByPath(path, suggestedName) ->
fileId, cacheByUrl(url, suggestedName) -> fileId". -/

/-- Modelled from the spec: the filesystem and artifact-cache
collaborators of `MessageHandler`, plus its three configured paths
(`image_path`, `voice_path`, `wechat_path`; `.absolute()` is the
identity in the model, the configured paths standing for their
absolute forms). -/
structure Env where
  image_path : String
  voice_path : String
  wechat_path : String
  fileExists : String → Bool
  cacheFromPath : String → String → Except PyExn String
  cacheFromUrl : String → String → Except PyExn String

/-- `MessageHandler._find_file`: probe `<path>.jpg`, `<path>.png`,
`<path>.gif` in that order. -/
def find_file (env : Env) (file_path : String) : Option String :=
  if env.fileExists (file_path ++ ".jpg") then some (file_path ++ ".jpg")
  else if env.fileExists (file_path ++ ".png") then some (file_path ++ ".png")
  else if env.fileExists (file_path ++ ".gif") then some (file_path ++ ".gif")
  else none

/-- `MessageHandler.handle_image`. -/
def handle_image (env : Env) (msg : WechatMessage) : Except PyExn (Option Event) :=
  let file_name := pyStem msg.filepath
  let file_path := env.image_path ++ "/" ++ file_name
  match find_file env file_path with
  | none => .ok none
  | some file =>
    match env.cacheFromPath file (pyBaseName file) with
    | .error e => .error e
    | .ok file_id =>
      let message := [MessageSegment.image file_id]
      if strContains msg.sender "@chatroom" then
        .ok (some (.groupMessage msg.timestamp msg.self (toString msg.msgid)
          message msg.wxid msg.sender))
      else
        .ok (some (.privateMessage msg.timestamp msg.self (toString msg.msgid)
          message msg.wxid))

/-- `MessageHandler.handle_voice` (the source builds an **image**
segment from the cached voice file). -/
def handle_voice (env : Env) (msg : WechatMessage) : Except PyExn (Option Event) :=
  let file := env.voice_path ++ "/" ++ msg.sign ++ ".amr"
  match env.cacheFromPath file (pyBaseName file) with
  | .error e => .error e
  | .ok file_id =>
    let message := [MessageSegment.image file_id]
    if strContains msg.sender "@chatroom" then
      .ok (some (.groupMessage msg.timestamp msg.self (toString msg.msgid)
        message msg.wxid msg.sender))
    else
      .ok (some (.privateMessage msg.timestamp msg.self (toString msg.msgid)
        message msg.wxid))

/-- `MessageHandler.handle_friend_request`: all fields come from the
root element's attributes (`KeyError` when one is absent). -/
def handle_friend_request (msg : WechatMessage) : Except PyExn (Option Event) :=
  match ET_fromstring msg.message with
  | .error e => .error e
  | .ok xml_obj => do
    let fromusername ← xmlAttrSub xml_obj "fromusername"
    let encryptusername ← xmlAttrSub xml_obj "encryptusername"
    let ticket ← xmlAttrSub xml_obj "ticket"
    let fromnickname ← xmlAttrSub xml_obj "fromnickname"
    let content ← xmlAttrSub xml_obj "content"
    let country ← xmlAttrSub xml_obj "country"
    let province ← xmlAttrSub xml_obj "province"
    let city ← xmlAttrSub xml_obj "city"
    return some (.friendRequest msg.timestamp msg.self fromusername
      encryptusername ticket fromnickname content country province city)

/-- `MessageHandler.handle_card`. -/
def handle_card (msg : WechatMessage) : Except PyExn (Option Event) :=
  match ET_fromstring msg.message with
  | .error e => .error e
  | .ok xml_obj => do
    let username ← xmlAttrSub xml_obj "username"
    let antispamticket ← xmlAttrSub xml_obj "antispamticket"
    let bigheadimgurl ← xmlAttrSub xml_obj "bigheadimgurl"
    let province ← xmlAttrSub xml_obj "province"
    let city ← xmlAttrSub xml_obj "city"
    let sex ← xmlAttrSub xml_obj "sex"
    let message := [MessageSegment.card username antispamticket bigheadimgurl
      province city sex]
    if strContains msg.sender "@chatroom" then
      return some (.groupMessage msg.timestamp msg.self (toString msg.msgid)
        message msg.wxid msg.sender)
    else
      return some (.privateMessage msg.timestamp msg.self (toString msg.msgid)
        message msg.wxid)

/-- `MessageHandler.handle_video`. -/
def handle_video (env : Env) (msg : WechatMessage) : Except PyExn (Option Event) :=
  let video_img := env.wechat_path ++ "/" ++ msg.thumb_path
  let video_path := pyParent video_img
  let video_name := pyStem video_img ++ ".mp4"
  let video := video_path ++ "/" ++ video_name
  match env.cacheFromPath video video_name with
  | .error e => .error e
  | .ok file_id =>
    let message := [MessageSegment.video file_id]
    if strContains msg.sender "@chatroom" then
      .ok (some (.groupMessage msg.timestamp msg.self (toString msg.msgid)
        message msg.wxid msg.sender))
    else
      .ok (some (.privateMessage msg.timestamp msg.self (toString msg.msgid)
        message msg.wxid))

/-- `MessageHandler.handle_emoji`: `xml_obj.find("./emoji")` returning
`None` raises `AttributeError` at the `.attrib` access; a missing
`cdnurl` attribute makes `unquote(None)` raise `TypeError`. -/
def handle_emoji (env : Env) (msg : WechatMessage) : Except PyExn (Option Event) :=
  match ET_fromstring msg.message with
  | .error e => .error e
  | .ok xml_obj =>
    match xmlFindChild xml_obj "emoji" with
    | none => .error (.attributeError "attrib")
    | some emoji_elem =>
      match xmlAttrGet emoji_elem "cdnurl" with
      | none => .error (.typeError "unquote() expected str")
      | some emoji_url =>
        let emoji := pyUnquote emoji_url
        match env.cacheFromUrl emoji (toString msg.msgid ++ ".gif") with
        | .error e => .error e
        | .ok file_id =>
          let message := [MessageSegment.image file_id]
          if strContains msg.sender "@chatroom" then
            .ok (some (.groupMessage msg.timestamp msg.self (toString msg.msgid)
              message msg.wxid msg.sender))
          else
            .ok (some (.privateMessage msg.timestamp msg.self (toString msg.msgid)
              message msg.wxid))

/-- `MessageHandler.handle_location`. -/
def handle_location (msg : WechatMessage) : Except PyExn (Option Event) :=
  match ET_fromstring msg.message with
  | .error e => .error e
  | .ok xml_obj => do
    let x ← xmlAttrSub xml_obj "x"
    let y ← xmlAttrSub xml_obj "y"
    let label ← xmlAttrSub xml_obj "label"
    let poiname ← xmlAttrSub xml_obj "poiname"
    let message := [MessageSegment.location x y label poiname]
    if strContains msg.sender "@chatroom" then
      return some (.groupMessage msg.timestamp msg.self (toString msg.msgid)
        message msg.wxid msg.sender)
    else
      return some (.privateMessage msg.timestamp msg.self (toString msg.msgid)
        message msg.wxid)

/-! ## The system/app handler registries and their calling convention

`SYS_HANDLERS`, `GROUP_SYS_HANDLERS` and `APP_HANDLERS` are populated
by decorators that run **before** `@classmethod` wraps the functions
(decorators apply bottom-up), so the registries hold the raw functions
whose first positional parameter is `cls`.  The dispatch loops then
call them as plain functions — `handler(msg)`, `handler(msg, xml_obj)`
and `handler(self, msg, app)` — so every argument lands one slot to
the left: `cls` receives the first argument, and a call that provides
fewer arguments than the function's parameters raises `TypeError`
before the body runs.  The model makes this calling convention
explicit: a registered handler records its positional parameter count
and a body over dynamically typed arguments. -/

/-- A dynamically typed Python argument as passed to a registered
handler: the raw message, an XML element, or the `MessageHandler`
instance. -/
inductive PyArgV where
  | wxmsg (m : WechatMessage)
  | xml (x : Xml)
  | handlerObj
  deriving Repr

/-- Attribute access `arg.message`: only the raw message has it. -/
def pyAttrMessage : PyArgV → Except PyExn String
  | .wxmsg m => .ok m.message
  | _ => .error (.attributeError "message")

/-- A registry entry: a raw Python function with its positional
parameter count (including the leading `cls`). -/
structure RawHandler where
  paramCount : Nat
  run : List PyArgV → Except PyExn (Option Event)

/-- Calling a registered handler with a list of positional arguments:
`TypeError` unless the count matches the function's parameters. -/
def callRawHandler (h : RawHandler) (args : List PyArgV) :
    Except PyExn (Option Event) :=
  if args.length = h.paramCount then h.run args
  else .error (.typeError "positional argument count mismatch")

/-- `SysMessageHandler.read_bag` as registered: the raw function
`(cls, msg)`; its body matches the red-packet literal. -/
def read_bag_raw : RawHandler where
  paramCount := 2
  run := fun args =>
    match args with
    | [_cls, m] =>
      match pyAttrMessage m with
      | .error e => .error e
      | .ok s =>
        if s ≠ "收到红包，请在手机上查看" then .ok none
        else
          match m with
          | .wxmsg msg =>
            if strContains msg.sender "@chatroom" then
              .ok (some (.groupRedBagNotice msg.timestamp msg.self msg.wxid
                msg.sender))
            else
              .ok (some (.privateRedBagNotice msg.timestamp msg.self msg.wxid))
          | _ => .error (.attributeError "sender")
    | _ => .error (.typeError "positional argument count mismatch")

/-- `SysMessageHandler.poke` as registered: the raw function
`(cls, msg)`; its body matches the poke literal. -/
def poke_raw : RawHandler where
  paramCount := 2
  run := fun args =>
    match args with
    | [_cls, m] =>
      match pyAttrMessage m with
      | .error e => .error e
      | .ok s =>
        if !(strContains s " 拍了拍我") then .ok none
        else
          match m with
          | .wxmsg msg =>
            if strContains msg.sender "@chatroom" then
              .ok (some (.groupPokeNotice msg.timestamp msg.self msg.wxid
                msg.sender))
            else
              .ok (some (.privatePokeNotice msg.timestamp msg.self msg.wxid))
          | _ => .error (.attributeError "sender")
    | _ => .error (.typeError "positional argument count mismatch")

/-- `SYS_HANDLERS` in registration order. -/
def SYS_HANDLERS : List RawHandler := [read_bag_raw, poke_raw]

/-- The loop of `MessageHandler.handle_sys`: call each handler with
the single argument `msg`, stop at the first non-`None` result
(`None` when every handler declines).  Each registered function has
two parameters (`cls`, `msg`), so the one-argument call raises
`TypeError` at the first handler. -/
def sysHandlerLoop : List RawHandler → WechatMessage → Except PyExn (Option Event)
  | [], _ => .ok none
  | h :: rest, msg =>
    match callRawHandler h [.wxmsg msg] with
    | .error e => .error e
    | .ok (some r) => .ok (some r)
    | .ok none => sysHandlerLoop rest msg

/-- `MessageHandler.handle_sys`. -/
def handle_sys (msg : WechatMessage) : Except PyExn (Option Event) :=
  sysHandlerLoop SYS_HANDLERS msg

/-- `GroupSysMsgHandler.event` as registered: the raw function
`(cls, msg)`.  Both branches of its body produce `None`
(`return None` / bare `return`); when `handle_group_sys` calls it as
`handler(msg, xml_obj)`, the `msg` parameter receives the XML element,
whose `.message` access raises `AttributeError`. -/
def group_sys_event_raw : RawHandler where
  paramCount := 2
  run := fun args =>
    match args with
    | [_cls, m] =>
      match pyAttrMessage m with
      | .error e => .error e
      | .ok s => if s ≠ "收到红包，请在手机上查看" then .ok none else .ok none
    | _ => .error (.typeError "positional argument count mismatch")

/-- `GROUP_SYS_HANDLERS` in registration order. -/
def GROUP_SYS_HANDLERS : List RawHandler := [group_sys_event_raw]

/-- The loop of `MessageHandler.handle_group_sys`: call each handler
as `handler(msg, xml_obj)`, stop at the first non-`None` result
(`None` when every handler declines). -/
def groupSysHandlerLoop : List RawHandler → WechatMessage → Xml →
    Except PyExn (Option Event)
  | [], _, _ => .ok none
  | h :: rest, msg, x =>
    match callRawHandler h [.wxmsg msg, .xml x] with
    | .error e => .error e
    | .ok (some r) => .ok (some r)
    | .ok none => groupSysHandlerLoop rest msg x

/-- `MessageHandler.handle_group_sys`: parse the payload, run the
group-system handler loop, and `return result`.  The function's body
continues after this `return` with a recall/delete branch
(`revokemsg/newmsgid` lookup producing `GroupMessageDeleteEvent` /
`PrivateMessageDeleteEvent`); that code is after an unconditional
return and never executes, so it is no part of this definition — it
is transcribed separately as `group_sys_recall_tail`. -/
def handle_group_sys (msg : WechatMessage) : Except PyExn (Option Event) :=
  match ET_fromstring msg.message with
  | .error e => .error e
  | .ok xml_obj => groupSysHandlerLoop GROUP_SYS_HANDLERS msg xml_obj

/-- The dead code of `handle_group_sys` after its `return result`
(lines 508–531 of `com_wechat/message.py`), transcribed for
reference: were it reachable, it would re-parse the payload, look up
`./revokemsg/newmsgid`, and build a delete event. -/
def group_sys_recall_tail (msg : WechatMessage) : Except PyExn (Option Event) :=
  match ET_fromstring msg.message with
  | .error e => .error e
  | .ok xml_obj =>
    match (xmlFindChild xml_obj "revokemsg").bind (fun r => xmlFindChild r "newmsgid") with
    | none => .ok none
    | some msg_obj =>
      match msg_obj.text with
      | none => .ok none
      | some message_id =>
        if strContains msg.sender "@chatroom" then
          .ok (some (.groupMessageDelete msg.timestamp msg.self message_id
            msg.sender msg.wxid ""))
        else
          .ok (some (.privateMessageDelete msg.timestamp msg.self message_id))

/-! Modelled from the spec: the `AppType` sub-discriminators
(`com_wechat/type.py` is not among the source files).  Six subtypes
are registered via `@add_app_handler`; their exact integer values do
not matter to any claim, only that they are the keys of
`APP_HANDLERS`. -/

/-- The keys of `APP_HANDLERS`: the six app subtypes registered via
`@add_app_handler` (`LINK_MSG`, `FILE_NOTICE`, `QUOTE`, `APP`,
`GROUP_ANNOUNCEMENT`, `TRANSFER`); values modelled from the spec. -/
def appHandlerKeys : List Int := [5, 6, 57, 33, 87, 2000]

/-- `MessageHandler.handle_app`: second-level dispatch on the
`appmsg/type` sub-discriminator.  A missing `appmsg` element raises
`AttributeError` (`None.find`), a missing `type` element raises
`AttributeError` (`None.text`), a non-numeric `type` text raises
`ValueError` in `int()`.  Every registered app handler is the raw
function `(cls, msg_handler, msg, app)` invoked as
`handler(self, msg, app)` — three arguments for four parameters — so
a registered subtype raises `TypeError` at the call; an unregistered
subtype returns `None`. -/
def handle_app (msg : WechatMessage) : Except PyExn (Option Event) :=
  match ET_fromstring msg.message with
  | .error e => .error e
  | .ok xml_obj =>
    match xmlFindChild xml_obj "appmsg" with
    | none => .error (.attributeError "find")
    | some app =>
      match xmlFindChild app "type" with
      | none => .error (.attributeError "text")
      | some type_elem =>
        match type_elem.text with
        | none => .error (.typeError "int() argument must not be None")
        | some t =>
          match pyInt t with
          | none => .error (.valueError "invalid literal for int()")
          | some n =>
            if n ∈ appHandlerKeys then
              .error (.typeError "missing 1 required positional argument")
            else .ok none

/-- Wrap a `MessageHandler` method body as the raw two-parameter
function (`self`, `msg`) that `@add_handler` stores in `HANDLE_DICT`
at class-body time: its positional parameter count is 2, and the body
runs on whatever lands in the `msg` slot when two arguments are in
fact supplied.  (The fallback arms are unreachable through
`handle_message`, which always supplies exactly one argument.) -/
def asMsgHandler (body : WechatMessage → Except PyExn (Option Event)) :
    RawHandler where
  paramCount := 2
  run := fun args =>
    match args with
    | [_self, .wxmsg m] => body m
    | [_self, _] => .error (.attributeError "message")
    | _ => .error (.typeError "positional argument count mismatch")

/-- `HANDLE_DICT`: the message-handler registry filled by
`@add_handler` during class-body execution.  Like the other
registries, it holds the **raw** functions — instance methods whose
first positional parameter is `self` (the `MessageHandler` carrying
the paths and file manager, played here by `env`). -/
def HANDLE_DICT (env : Env) (t : Int) : Option RawHandler :=
  if t = WxType_TEXT_MSG then some (asMsgHandler handle_text)
  else if t = WxType_IMAGE_MSG then some (asMsgHandler (handle_image env))
  else if t = WxType_VOICE_MSG then some (asMsgHandler (handle_voice env))
  else if t = WxType_FRIEND_REQUEST then some (asMsgHandler handle_friend_request)
  else if t = WxType_CARD_MSG then some (asMsgHandler handle_card)
  else if t = WxType_VIDEO_MSG then some (asMsgHandler (handle_video env))
  else if t = WxType_EMOJI_MSG then some (asMsgHandler (handle_emoji env))
  else if t = WxType_LOCATION_MSG then some (asMsgHandler handle_location)
  else if t = WxType_APP_MSG then some (asMsgHandler handle_app)
  else if t = WxType_SYSTEM_MSG then some (asMsgHandler handle_sys)
  else if t = WxType_GROUP_SYS_MSG then some (asMsgHandler handle_group_sys)
  else none

/-- `MessageHandler.handle_message`: look `msg.type` up in
`HANDLE_DICT` (`None` for an unregistered tag, returned unchanged),
otherwise call the registered handler as `handler(msg)` — awaited
when it is a coroutine, which changes nothing here: the registry
holds the raw two-parameter functions, so the one-argument call binds
`msg` to the `self` parameter and raises `TypeError` for **every**
registered type before any handler body runs. -/
def handle_message (env : Env) (msg : WechatMessage) : Except PyExn (Option Event) :=
  match HANDLE_DICT env msg.type with
  | none => .ok none
  | some handler => callRawHandler handler [.wxmsg msg]

/-! ## The action dispatch layer (`action_manager/manager.py`)

`ApiManager.request` resolves the action name with
`getattr(self, request.action)` **outside** its `try` block, then
calls `func(**request.params)` inside `try/except Exception`.  The
model records every call made on the COM automation capability in a
trace, distinguishes Python `Exception`s (`ExecResult.exn`) from
`SystemExit` raised by `exit(0)` (`ExecResult.exit`, which
`except Exception` does not catch) and from non-termination of the
`wait_for_login` polling loop (`ExecResult.diverges`). -/

/-- The action request as consumed by `ApiManager.request`: an action
name and keyword parameters (wire values). -/
structure ActionRequest where
  action : String
  params : List (String × PyVal)

/-- One call on the COM automation capability, with its arguments. -/
inductive CapCall where
  | get_self_info
  | get_user_info (user_id : PyVal)
  | get_friend_list
  | get_group_list
  | get_group_members (group_id : PyVal)
  | set_group_name (group_id group_name : PyVal)
  | delete_groupmember
  | close
  | init
  | init_wechat_pid
  | start_service
  | is_wechat_login
  | register_msg_event
  | start_receive_message
  | hook_image_msg (path : PyVal)
  | hook_voice_msg (path : PyVal)
  | register_message_handler
  deriving Repr

/-- Modelled from the spec: the COM automation capability
(`com_wechat.ComWechatApi`; consumed as an opaque capability, spec §6).
Each field is the outcome the capability produces for the
corresponding call: a value, or a raised `Exception`.  `interrupted`
abstracts a `KeyboardInterrupt` arriving while `wait_for_login`
polls a login result that stays false. -/
structure ComWechatApi where
  self_info : Except PyExn PyVal
  user_info : PyVal → Except PyExn PyVal
  friend_list : Except PyExn PyVal
  group_list : Except PyExn PyVal
  group_members : PyVal → Except PyExn PyVal
  set_group_name_r : PyVal → PyVal → Except PyExn PyVal
  delete_groupmember_r : Except PyExn PyVal
  close_r : Except PyExn PyVal
  init_r : Except PyExn Bool
  init_wechat_pid_r : Except PyExn Bool
  start_service_r : Except PyExn Bool
  is_wechat_login_r : Except PyExn Bool
  interrupted : Bool
  register_msg_event_r : Except PyExn PyVal
  start_receive_message_r : Except PyExn Bool
  hook_image_msg_r : PyVal → Except PyExn Bool
  hook_voice_msg_r : PyVal → Except PyExn Bool
  register_message_handler_r : Except PyExn PyVal

/-- Outcome of executing Python code: a returned value, a raised
`Exception`, `SystemExit` from `exit(code)`, or non-termination. -/
inductive ExecResult where
  | ok (v : PyVal)
  | exn (e : PyExn)
  | exit (code : Nat)
  | diverges
  deriving Repr

/-- Keyword-parameter lookup with Python's `None` default. -/
def getParam (ps : List (String × PyVal)) (k : String) : PyVal :=
  (ps.lookup k).getD .null

/-- `ActionManager.get_self_info`. -/
def ActionManager_get_self_info (com : ComWechatApi) : ExecResult × List CapCall :=
  match com.self_info with
  | .error e => (.exn e, [.get_self_info])
  | .ok info =>
    match pySubscript info "WxId" with
    | .error e => (.exn e, [.get_self_info])
    | .ok wx =>
      match pySubscript info "Name" with
      | .error e => (.exn e, [.get_self_info])
      | .ok nm =>
        (.ok (.actionResponse (.str "ok") (some 200) none
          (.dict [("user_id", wx), ("user_name", nm),
                  ("user_displayname", .str "")])), [.get_self_info])

/-- `ActionManager.get_user_info`. -/
def ActionManager_get_user_info (com : ComWechatApi) (user_id : PyVal) :
    ExecResult × List CapCall :=
  match com.user_info user_id with
  | .error e => (.exn e, [.get_user_info user_id])
  | .ok info =>
    match pySubscript info "Name" with
    | .error e => (.exn e, [.get_user_info user_id])
    | .ok nm =>
      match pySubscript info "remark" with
      | .error e => (.exn e, [.get_user_info user_id])
      | .ok remark =>
        (.ok (.actionResponse (.str "ok") (some 200) none
          (.dict [("user_id", user_id), ("user_name", nm),
                  ("user_displayname", .str ""), ("user_remark", remark)])),
         [.get_user_info user_id])

/-- `ActionManager.get_friend_list`. -/
def ActionManager_get_friend_list (com : ComWechatApi) : ExecResult × List CapCall :=
  match com.friend_list with
  | .error e => (.exn e, [.get_friend_list])
  | .ok data => (.ok (.actionResponse (.str "ok") (some 200) none data),
      [.get_friend_list])

/-- `ActionManager.get_group_info` (it calls `get_user_info` on the
capability and reads the lowercase `name` key). -/
def ActionManager_get_group_info (com : ComWechatApi) (group_id : PyVal) :
    ExecResult × List CapCall :=
  match com.user_info group_id with
  | .error e => (.exn e, [.get_user_info group_id])
  | .ok info =>
    match pySubscript info "name" with
    | .error e => (.exn e, [.get_user_info group_id])
    | .ok nm =>
      (.ok (.actionResponse (.str "ok") (some 200) none
        (.dict [("group_id", group_id), ("group_name", nm)])),
       [.get_user_info group_id])

/-- `ActionManager.get_group_list`. -/
def ActionManager_get_group_list (com : ComWechatApi) : ExecResult × List CapCall :=
  match com.group_list with
  | .error e => (.exn e, [.get_group_list])
  | .ok data => (.ok (.actionResponse (.str "ok") (some 200) none data),
      [.get_group_list])

/-- `ActionManager.get_group_member_info` (subscripts the member
collection itself with `"name"`). -/
def ActionManager_get_group_member_info (com : ComWechatApi)
    (group_id user_id : PyVal) : ExecResult × List CapCall :=
  match com.group_members group_id with
  | .error e => (.exn e, [.get_group_members group_id])
  | .ok info =>
    match pySubscript info "name" with
    | .error e => (.exn e, [.get_group_members group_id])
    | .ok nm =>
      (.ok (.actionResponse (.str "ok") (some 200) none
        (.dict [("user_id", user_id), ("user_name", nm),
                ("user_displayname", .str "")])),
       [.get_group_members group_id])

/-- The comprehension of `get_group_member_list`: each member dict
contributes `{user_id, user_name, user_displayname}`. -/
def memberEntries : List PyVal → Except PyExn (List PyVal)
  | [] => .ok []
  | m :: rest => do
    let wxid ← pySubscript m "wxid"
    let name ← pySubscript m "name"
    let tail ← memberEntries rest
    return .dict [("user_id", wxid), ("user_name", name),
                  ("user_displayname", .str "")] :: tail

/-- `ActionManager.get_group_member_list`: iterates the capability's
result (iterating a non-empty dict yields its string keys, whose
string subscript raises `TypeError`; any non-iterable raises
`TypeError`). -/
def ActionManager_get_group_member_list (com : ComWechatApi) (group_id : PyVal) :
    ExecResult × List CapCall :=
  match com.group_members group_id with
  | .error e => (.exn e, [.get_group_members group_id])
  | .ok (.list members) =>
    match memberEntries members with
    | .error e => (.exn e, [.get_group_members group_id])
    | .ok entries =>
      (.ok (.actionResponse (.str "ok") (some 200) none (.list entries)),
       [.get_group_members group_id])
  | .ok (.dict []) =>
    (.ok (.actionResponse (.str "ok") (some 200) none (.list [])),
     [.get_group_members group_id])
  | .ok _ => (.exn (.typeError "object is not iterable"),
      [.get_group_members group_id])

/-- `ActionManager.set_group_name`. -/
def ActionManager_set_group_name (com : ComWechatApi)
    (group_id group_name : PyVal) : ExecResult × List CapCall :=
  match com.set_group_name_r group_id group_name with
  | .error e => (.exn e, [.set_group_name group_id group_name])
  | .ok _ =>
    (.ok (.actionResponse (.str "ok") (some 200) none .null),
     [.set_group_name group_id group_name])

/-- `ActionManager.leave_group` (the source calls
`delete_groupmember()` with no arguments). -/
def ActionManager_leave_group (com : ComWechatApi) : ExecResult × List CapCall :=
  match com.delete_groupmember_r with
  | .error e => (.exn e, [.delete_groupmember])
  | .ok _ =>
    (.ok (.actionResponse (.str "ok") (some 200) none .null),
     [.delete_groupmember])

/-- `ApiManager.close`. -/
def ApiManager_close (com : ComWechatApi) : ExecResult × List CapCall :=
  match com.close_r with
  | .error e => (.exn e, [.close])
  | .ok _ => (.ok .null, [.close])

/-- `ApiManager.get_wxid` (reads the lowercase `wxId` key). -/
def ApiManager_get_wxid (com : ComWechatApi) : ExecResult × List CapCall :=
  match com.self_info with
  | .error e => (.exn e, [.get_self_info])
  | .ok info =>
    match pySubscript info "wxId" with
    | .error e => (.exn e, [.get_self_info])
    | .ok wx => (.ok wx, [.get_self_info])

/-- `ApiManager.wait_for_login`: polls `is_wechat_login` once per
second until it is true; a constant false answer never terminates
unless a `KeyboardInterrupt` (modelled by `interrupted`) ends the
loop with `False`; any other exception from the poll propagates. -/
def ApiManager_wait_for_login (com : ComWechatApi) : ExecResult × List CapCall :=
  match com.is_wechat_login_r with
  | .error e => (.exn e, [.is_wechat_login])
  | .ok true => (.ok (.bool true), [.is_wechat_login])
  | .ok false =>
    if com.interrupted then (.ok (.bool false), [.is_wechat_login])
    else (.diverges, [.is_wechat_login])

/-- `ApiManager.init`: a failing `init`/`init_wechat_pid`/
`start_service` step, or a login wait that returns `False`, reaches
`exit(0)` — i.e. raises `SystemExit`, which `except Exception` does
not catch. -/
def ApiManager_init (com : ComWechatApi) : ExecResult × List CapCall :=
  match com.init_r with
  | .error e => (.exn e, [.init])
  | .ok false => (.exit 0, [.init])
  | .ok true =>
    match com.init_wechat_pid_r with
    | .error e => (.exn e, [.init, .init_wechat_pid])
    | .ok false => (.exit 0, [.init, .init_wechat_pid, .close])
    | .ok true =>
      match com.start_service_r with
      | .error e => (.exn e, [.init, .init_wechat_pid, .start_service])
      | .ok false => (.exit 0, [.init, .init_wechat_pid, .start_service, .close])
      | .ok true =>
        match com.is_wechat_login_r with
        | .error e => (.exn e,
            [.init, .init_wechat_pid, .start_service, .is_wechat_login])
        | .ok true => (.ok .null,
            [.init, .init_wechat_pid, .start_service, .is_wechat_login])
        | .ok false =>
          if com.interrupted then
            (.exit 0,
             [.init, .init_wechat_pid, .start_service, .is_wechat_login, .close])
          else
            (.diverges,
             [.init, .init_wechat_pid, .start_service, .is_wechat_login])

/-- `ApiManager.open_recv_msg`: registers the message event and
starts the message/image/voice hooks; failed hooks are only logged. -/
def ApiManager_open_recv_msg (com : ComWechatApi) (file_path : PyVal) :
    ExecResult × List CapCall :=
  let pathStr := match file_path with
    | .str s => s
    | _ => ""
  let img := PyVal.str (pathStr ++ "/image")
  let voice := PyVal.str (pathStr ++ "/voice")
  match com.register_msg_event_r with
  | .error e => (.exn e, [.register_msg_event])
  | .ok _ =>
    match com.start_receive_message_r with
    | .error e => (.exn e, [.register_msg_event, .start_receive_message])
    | .ok _ =>
      match com.hook_image_msg_r img with
      | .error e => (.exn e,
          [.register_msg_event, .start_receive_message, .hook_image_msg img])
      | .ok _ =>
        match com.hook_voice_msg_r voice with
        | .error e => (.exn e,
            [.register_msg_event, .start_receive_message, .hook_image_msg img,
             .hook_voice_msg voice])
        | .ok _ => (.ok .null,
            [.register_msg_event, .start_receive_message, .hook_image_msg img,
             .hook_voice_msg voice])

/-- `ApiManager.register_message_handler`. -/
def ApiManager_register_message_handler (com : ComWechatApi) :
    ExecResult × List CapCall :=
  match com.register_message_handler_r with
  | .error e => (.exn e, [.register_message_handler])
  | .ok _ => (.ok .null, [.register_message_handler])

/-- The class-defined attributes of `ActionManager` instances
(`ApiManager` methods and the `com_api` field, plus the ten
`@add_action` methods).  Python instances additionally expose
inherited dunder attributes (`__init__`, `__class__`, ...); wire
action names are plain identifiers, and the theorems about unknown
actions exclude dunder names explicitly. -/
def managerAttrs : List String :=
  ["init", "wait_for_login", "open_recv_msg", "close", "get_wxid", "request",
   "register_message_handler", "com_api",
   "send_message", "get_self_info", "get_user_info", "get_friend_list",
   "get_group_info", "get_group_list", "get_group_member_info",
   "get_group_member_list", "set_group_name", "leave_group"]

/-- The declared set of supported actions: exactly the methods marked
`@add_action` in `ActionManager`. -/
def declaredActions : List String :=
  ["send_message", "get_self_info", "get_user_info", "get_friend_list",
   "get_group_info", "get_group_list", "get_group_member_info",
   "get_group_member_list", "set_group_name", "leave_group"]

/-- Required and optional keyword parameters of each method, from the
source signatures (`self` excluded; parameters with defaults are
optional). -/
def methodParams (name : String) : List String × List String :=
  if name = "send_message" then
    (["detail_type", "message"], ["user_id", "group_id", "guild_id", "channel_id"])
  else if name = "get_user_info" then (["user_id"], [])
  else if name = "get_group_info" then (["group_id"], [])
  else if name = "get_group_member_info" then (["group_id", "user_id"], [])
  else if name = "get_group_member_list" then (["group_id"], [])
  else if name = "set_group_name" then (["group_id", "group_name"], [])
  else if name = "leave_group" then (["group_id"], [])
  else if name = "open_recv_msg" then (["file_path"], [])
  else if name = "request" then (["request"], [])
  else if name = "register_message_handler" then (["func"], [])
  else ([], [])

/-- Does `func(**params)` bind: every required parameter is supplied
and no key falls outside the signature. -/
def bindOk (name : String) (ps : List (String × PyVal)) : Bool :=
  let (req, opt) := methodParams name
  req.all (fun k => (ps.lookup k).isSome) &&
    ps.all (fun p => (req ++ opt).contains p.1)

/-- The body of the method attribute `name` applied to keyword
arguments (binding already succeeded). -/
def execMethod (com : ComWechatApi) (name : String) (ps : List (String × PyVal)) :
    ExecResult × List CapCall :=
  if name = "send_message" then (.ok .null, [])
  else if name = "get_self_info" then ActionManager_get_self_info com
  else if name = "get_user_info" then
    ActionManager_get_user_info com (getParam ps "user_id")
  else if name = "get_friend_list" then ActionManager_get_friend_list com
  else if name = "get_group_info" then
    ActionManager_get_group_info com (getParam ps "group_id")
  else if name = "get_group_list" then ActionManager_get_group_list com
  else if name = "get_group_member_info" then
    ActionManager_get_group_member_info com (getParam ps "group_id")
      (getParam ps "user_id")
  else if name = "get_group_member_list" then
    ActionManager_get_group_member_list com (getParam ps "group_id")
  else if name = "set_group_name" then
    ActionManager_set_group_name com (getParam ps "group_id")
      (getParam ps "group_name")
  else if name = "leave_group" then ActionManager_leave_group com
  else if name = "init" then ApiManager_init com
  else if name = "wait_for_login" then ApiManager_wait_for_login com
  else if name = "open_recv_msg" then
    ApiManager_open_recv_msg com (getParam ps "file_path")
  else if name = "close" then ApiManager_close com
  else if name = "get_wxid" then ApiManager_get_wxid com
  else if name = "request" then
    -- recursive `self.request(request=<wire value>)`: the inner body's
    -- first statement `request.action` is an attribute access on a plain
    -- wire value, which raises AttributeError inside the outer `try`
    (.exn (.attributeError "action"), [])
  else if name = "register_message_handler" then
    ApiManager_register_message_handler com
  else (.exn (.attributeError name), [])

/-- `func(**request.params)` for a method attribute: parameter
binding (a mismatch raises `TypeError` at the call, inside the `try`)
followed by the body. -/
def boundCall (com : ComWechatApi) (req : ActionRequest) :
    ExecResult × List CapCall :=
  if bindOk req.action req.params then execMethod com req.action req.params
  else (.exn (.typeError "unexpected or missing keyword arguments"), [])

/-- The success envelope `ActionResponse(status=200, msg="请求成功",
data=result)` built by `ApiManager.request`. -/
def successEnvelope (result : PyVal) : PyVal :=
  .actionResponse (.int 200) none (some "请求成功") result

/-- The failure envelope `ActionResponse(status=500,
msg="内部服务错误...", data={})` built by `ApiManager.request`. -/
def internalErrorEnvelope : PyVal :=
  .actionResponse (.int 500) none (some "内部服务错误...") (.dict [])

/-- `ApiManager.request`: `getattr(self, request.action)` outside the
`try` (an unknown attribute raises `AttributeError` uncaught), then
`func(**request.params)` inside `try/except Exception`, whose raised
`Exception`s become the 500 envelope while `SystemExit`/divergence
pass through. -/
def ApiManager_request (com : ComWechatApi) (req : ActionRequest) :
    ExecResult × List CapCall :=
  if managerAttrs.contains req.action then
    let call :=
      if req.action = "com_api" then
        ((.exn (.typeError "'ComWechatApi' object is not callable") :
          ExecResult), ([] : List CapCall))
      else boundCall com req
    match call with
    | (.ok result, t) => (.ok (successEnvelope result), t)
    | (.exn _, t) => (.ok internalErrorEnvelope, t)
    | (.exit n, t) => (.exit n, t)
    | (.diverges, t) => (.diverges, t)
  else
    (.exn (.attributeError req.action), [])

/-! ## The WebSocket gateway (`wechat/wechat.py`)

`WeChatManager._handle_ws` first runs `_check_access_token` on the
upgrade request; a non-`None` response makes it close the socket with
code 1008 and return **before** `self.driver.ws_connect(websocket)`
registers the session.  The driver (`wechatbot_client.driver`, not
among the source files) is modelled from the spec: it owns the set of
live server-accepted sessions, to which event fan-out writes. -/

/-- ASCII lowercasing of one character. -/
def charLower (c : Char) : Char :=
  if 'A' ≤ c ∧ c ≤ 'Z' then Char.ofNat (c.toNat + 32) else c

/-- An HTTP response as produced by `_check_access_token`. -/
structure WsResponse where
  status : Nat
  content : String
  deriving Repr, DecidableEq

/-- Modelled from the spec: `get_auth_bearer` (`wechat/utils.py`, not
among the source files) extracts the bearer token from an
`Authorization` header — "authentication is header-based
(bearer-token compare against configured secret)"; a missing or
non-bearer header yields `None`, and `Bearer <token>` yields the
token. -/
def get_auth_bearer : Option String → Option String
  | none => none
  | some s =>
    if s = "" then none
    else
      let scheme := String.mk ((s.toList.takeWhile (· ≠ ' ')).map charLower)
      let param := String.mk ((s.toList.dropWhile (· ≠ ' ')).drop 1)
      if scheme = "bearer" then some param else none

example : get_auth_bearer (some "Bearer secret") = some "secret" := by rfl
example : get_auth_bearer none = none := by rfl
example : get_auth_bearer (some "Basic xyz") = none := by rfl

/-- Python truthiness of the extracted token (`if token` chooses the
warning message). -/
def tokenTruthy : Option String → Bool
  | some s => s ≠ ""
  | none => false

/-- `WeChatManager._check_access_token`: when a secret is configured
(non-empty) and the presented token differs from it (or is absent),
return a 403 response; otherwise return `None` (fall through). -/
def check_access_token (access_token : String) (authHeader : Option String) :
    Option WsResponse :=
  let token := get_auth_bearer authHeader
  if access_token ≠ "" ∧ token ≠ some access_token then
    some { status := 403,
           content := if tokenTruthy token then "Authorization Header is invalid"
                      else "Missing Authorization Header" }
  else none

/-- Modelled from the spec: the driver's session registry — the set
of live server-accepted sessions that event fan-out writes to, plus
the monotonically increasing sequence id "assigned at accept time". -/
structure DriverState where
  connections : List Nat
  nextSeq : Nat
  deriving Repr, DecidableEq

/-- Modelled from the spec: `Driver.ws_connect` — assign the next
sequence id and add the session to the fan-out set. -/
def ws_connect (st : DriverState) : Nat × DriverState :=
  (st.nextSeq,
   { connections := st.connections ++ [st.nextSeq], nextSeq := st.nextSeq + 1 })

/-- How `_handle_ws` begins for one accepted connection: rejection
with a close code, or registration into the fan-out set. -/
inductive WsStart where
  | rejected (closeCode : Nat) (reason : String)
  | registered (seq : Nat)
  deriving Repr, DecidableEq

/-- The opening of `WeChatManager._handle_ws`: run
`_check_access_token`; on a response, `websocket.close(1008, content)`
and `return` — before `ws_connect` runs; otherwise register the
session. -/
def handle_ws_start (access_token : String) (authHeader : Option String)
    (st : DriverState) : WsStart × DriverState :=
  match check_access_token access_token authHeader with
  | some resp => (.rejected 1008 resp.content, st)
  | none =>
    let (seq, st') := ws_connect st
    (.registered seq, st')

/-! ## Helper predicates and concrete fixtures for the theorems -/

/-- Did execution end in an ordinary return or a raised `Exception`
(as opposed to `SystemExit` or divergence)? -/
def ExecResult.isPlain : ExecResult → Bool
  | .ok _ => true
  | .exn _ => true
  | _ => false

/-- Did execution end in a raised `Exception`? -/
def ExecResult.isExn : ExecResult → Bool
  | .exn _ => true
  | _ => false

/-- Did a normalization step produce an event? -/
def producesEvent : Except PyExn (Option Event) → Bool
  | .ok (some _) => true
  | _ => false

/-- Is the value the string `"ok"`? -/
def PyVal.isStrOk : PyVal → Bool
  | .str s => s = "ok"
  | _ => false

/-- Is the value a dict (a mapping)? -/
def PyVal.isDict : PyVal → Bool
  | .dict _ => true
  | _ => false

/-- Does the name have the `__` prefix of Python's inherited dunder
attributes (which the attribute model leaves out)? -/
def isDunder (s : String) : Bool :=
  ("__".toList).isPrefixOf s.toList

/-- A benign concrete capability used by the witnesses and
counterexamples: every call succeeds with a plausible value. -/
def sampleCom : ComWechatApi where
  self_info := .ok (.dict [("WxId", .str "abc"), ("Name", .str "Bot"),
    ("wxId", .str "abc")])
  user_info := fun _ => .ok (.dict [("Name", .str "N"), ("remark", .str "r"),
    ("name", .str "g")])
  friend_list := .ok (.list [])
  group_list := .ok (.list [])
  group_members := fun _ => .ok (.list [])
  set_group_name_r := fun _ _ => .ok .null
  delete_groupmember_r := .ok .null
  close_r := .ok .null
  init_r := .ok true
  init_wechat_pid_r := .ok true
  start_service_r := .ok true
  is_wechat_login_r := .ok true
  interrupted := false
  register_msg_event_r := .ok .null
  start_receive_message_r := .ok true
  hook_image_msg_r := fun _ => .ok true
  hook_voice_msg_r := fun _ => .ok true
  register_message_handler_r := .ok .null

/-- The capability of the C3 scenario: `get_self_info` returns exactly
`{WxId: "abc", Name: "Bot"}`. -/
def getSelfCom : ComWechatApi :=
  { sampleCom with self_info := .ok (.dict [("WxId", .str "abc"),
      ("Name", .str "Bot")]) }

/-- A benign concrete normalizer environment for the witnesses and
counterexamples. -/
def sampleEnv : Env where
  image_path := "C:/img"
  voice_path := "C:/voice"
  wechat_path := "C:/wx"
  fileExists := fun _ => false
  cacheFromPath := fun _ _ => .ok "fid"
  cacheFromUrl := fun _ _ => .ok "fid"

/-- A registered-type (TEXT) raw message whose structured `extrainfo`
payload is malformed XML. -/
def badXmlTextMsg : WechatMessage where
  type := 1
  sender := "123@chatroom"
  wxid := "wx_u"
  message := "hello"
  extrainfo := "<bad"
  timestamp := 1700000000
  msgid := 42
  self := "wx_bot"
  filepath := ""
  sign := ""
  thumb_path := ""

/-- A TEXT message with two mention markers but only one provided
mention identifier (`N = 2`, `M = 1`). -/
def msgMentionOverflow : WechatMessage where
  type := 1
  sender := "123@chatroom"
  wxid := "wx_u"
  message := "@Alice hi @Bob yo"
  extrainfo := "<msgsource><atuserlist>wx_alice</atuserlist></msgsource>"
  timestamp := 1700000000
  msgid := 43
  self := "wx_bot"
  filepath := ""
  sign := ""
  thumb_path := ""

/-- The raw message of the C6 scenario, exactly as the claim states
it. -/
def msgScenarioC6 : WechatMessage where
  type := 1
  sender := "123@chatroom"
  wxid := "wx_u"
  message := "@Alice hello"
  extrainfo := "<atuserlist>wx_alice</atuserlist>"
  timestamp := 1700000000
  msgid := 44
  self := "wx_bot"
  filepath := ""
  sign := ""
  thumb_path := ""

/-- A raw message whose integer type tag (9999) is registered to no
handler. -/
def unregisteredMsg : WechatMessage where
  type := 9999
  sender := "wxid_friend"
  wxid := "wx_u"
  message := "hello"
  extrainfo := ""
  timestamp := 1700000000
  msgid := 46
  self := "wx_bot"
  filepath := ""
  sign := ""
  thumb_path := ""

/-- A group-system-message raw message with a well-formed payload. -/
def groupSysMsg : WechatMessage where
  type := 10002
  sender := "123@chatroom"
  wxid := "wx_u"
  message := "<sysmsg></sysmsg>"
  extrainfo := ""
  timestamp := 1700000000
  msgid := 45
  self := "wx_bot"
  filepath := ""
  sign := ""
  thumb_path := ""

/-! Each declared action's body either returns a value or raises an
`Exception` — never `SystemExit`, never divergence. -/

theorem isPlain_get_self_info (com : ComWechatApi) :
    (ActionManager_get_self_info com).1.isPlain = true := by
  unfold ActionManager_get_self_info
  repeat' split
  all_goals rfl

theorem isPlain_get_user_info (com : ComWechatApi) (u : PyVal) :
    (ActionManager_get_user_info com u).1.isPlain = true := by
  unfold ActionManager_get_user_info
  repeat' split
  all_goals rfl

theorem isPlain_get_friend_list (com : ComWechatApi) :
    (ActionManager_get_friend_list com).1.isPlain = true := by
  unfold ActionManager_get_friend_list
  repeat' split
  all_goals rfl

theorem isPlain_get_group_info (com : ComWechatApi) (g : PyVal) :
    (ActionManager_get_group_info com g).1.isPlain = true := by
  unfold ActionManager_get_group_info
  repeat' split
  all_goals rfl

theorem isPlain_get_group_list (com : ComWechatApi) :
    (ActionManager_get_group_list com).1.isPlain = true := by
  unfold ActionManager_get_group_list
  repeat' split
  all_goals rfl

theorem isPlain_get_group_member_info (com : ComWechatApi) (g u : PyVal) :
    (ActionManager_get_group_member_info com g u).1.isPlain = true := by
  unfold ActionManager_get_group_member_info
  repeat' split
  all_goals rfl

theorem isPlain_get_group_member_list (com : ComWechatApi) (g : PyVal) :
    (ActionManager_get_group_member_list com g).1.isPlain = true := by
  unfold ActionManager_get_group_member_list
  repeat' split
  all_goals rfl

theorem isPlain_set_group_name (com : ComWechatApi) (g n : PyVal) :
    (ActionManager_set_group_name com g n).1.isPlain = true := by
  unfold ActionManager_set_group_name
  repeat' split
  all_goals rfl

theorem isPlain_leave_group (com : ComWechatApi) :
    (ActionManager_leave_group com).1.isPlain = true := by
  unfold ActionManager_leave_group
  repeat' split
  all_goals rfl

/-- Executing any declared action's body returns or raises an
`Exception`; `exit(0)` and the login-wait loop are reachable only
through the non-action `ApiManager` methods. -/
theorem execMethod_declared_isPlain (com : ComWechatApi)
    (ps : List (String × PyVal)) (name : String) (h : name ∈ declaredActions) :
    (execMethod com name ps).1.isPlain = true := by
  fin_cases h <;>
    first
    | rfl
    | simp [execMethod, isPlain_get_self_info, isPlain_get_user_info,
        isPlain_get_friend_list, isPlain_get_group_info, isPlain_get_group_list,
        isPlain_get_group_member_info, isPlain_get_group_member_list,
        isPlain_set_group_name, isPlain_leave_group]

/-! ## Claim C1 -/

/-- C1, counterexample.  The claim — "for every ActionRequest whose
action name is not in the declared set of supported actions, dispatch
returns a structured not-found-category ActionResponse, performs no
call on the automation capability, and does not raise" — is false at
two explicit inputs: the action name `close` is not a declared action,
yet dispatch invokes it, calls `close` on the automation capability
and returns the 200 success envelope (no not-found response); the
action name `delete_universe` makes dispatch raise `AttributeError`
instead of returning a response. -/
theorem c1_counterexample :
    declaredActions.contains "close" = false ∧
    ApiManager_request sampleCom ⟨"close", []⟩ =
      (.ok (successEnvelope .null), [CapCall.close]) ∧
    declaredActions.contains "delete_universe" = false ∧
    ApiManager_request sampleCom ⟨"delete_universe", []⟩ =
      (.exn (.attributeError "delete_universe"), []) :=
  ⟨rfl, rfl, rfl, rfl⟩

/-- C1, amended.  `ApiManager.request` looks the action name up with
`getattr` outside its `try` block, so for every ActionRequest whose
action name is not an attribute of the manager (and not an inherited
dunder name, which the attribute model leaves out), dispatch raises
`AttributeError`: it returns no response and performs no call on the
automation capability.  (Undeclared names that do match an attribute,
such as `close`, are invoked instead of rejected —
`c1_counterexample`.) -/
theorem c1_unknown_attribute_raises (com : ComWechatApi) (req : ActionRequest)
    (h1 : req.action ∉ managerAttrs) (_h2 : isDunder req.action = false) :
    ApiManager_request com req = (.exn (.attributeError req.action), []) := by
  have hc : managerAttrs.contains req.action = false := by simpa using h1
  simp only [ApiManager_request, hc, Bool.false_eq_true, if_false]

/-- C1, witness for `c1_unknown_attribute_raises` at the concrete
action name `delete_universe`. -/
theorem c1_witness :
    ("delete_universe" ∉ managerAttrs) ∧ isDunder "delete_universe" = false ∧
    ApiManager_request sampleCom ⟨"delete_universe", []⟩ =
      (.exn (.attributeError "delete_universe"), []) :=
  ⟨by decide, by decide,
   c1_unknown_attribute_raises sampleCom ⟨"delete_universe", []⟩ (by decide)
     (by decide)⟩

/-! ## Claim C2 -/

/-- C2.  For every ActionRequest bound to a declared action: when the
bound operation (`func(**request.params)`) executes successfully with
value `v`, dispatch returns the ok-category (200, "请求成功") envelope
whose `data` payload is exactly `v`; when the bound operation raises
an exception, dispatch returns the internal-error (500) envelope; the
bound operation of a declared action can only return or raise an
`Exception` (never `SystemExit`, never divergence); and dispatch
itself never lets an exception escape once the lookup succeeded. -/
theorem c2_dispatch_boundary (com : ComWechatApi) (req : ActionRequest)
    (h : req.action ∈ declaredActions) :
    (∀ v t, boundCall com req = (.ok v, t) →
      ApiManager_request com req = (.ok (successEnvelope v), t)) ∧
    (∀ v, (successEnvelope v).dataOf = v) ∧
    (∀ e t, boundCall com req = (.exn e, t) →
      ApiManager_request com req = (.ok internalErrorEnvelope, t)) ∧
    (boundCall com req).1.isPlain = true ∧
    (ApiManager_request com req).1.isExn = false := by
  obtain ⟨a, ps⟩ := req
  have hmem : managerAttrs.contains a = true := by fin_cases h <;> rfl
  have hcom : ¬ (a = "com_api") := by fin_cases h <;> simp
  have hR : ApiManager_request com ⟨a, ps⟩ =
      (match boundCall com ⟨a, ps⟩ with
       | (.ok result, t) => ((.ok (successEnvelope result) : ExecResult), t)
       | (.exn _, t) => (.ok internalErrorEnvelope, t)
       | (.exit n, t) => (.exit n, t)
       | (.diverges, t) => (.diverges, t)) := by
    simp only [ApiManager_request, hmem, if_true, hcom, if_false]
  refine ⟨?_, fun v => rfl, ?_, ?_, ?_⟩
  · intro v t hbc
    rw [hR, hbc]
  · intro e t hbc
    rw [hR, hbc]
  · show (boundCall com ⟨a, ps⟩).1.isPlain = true
    unfold boundCall
    cases hb : bindOk a ps
    · simp only [Bool.false_eq_true, if_false]
      rfl
    · simp only [if_true]
      exact execMethod_declared_isPlain com ps a h
  · rw [hR]
    rcases hbc : boundCall com ⟨a, ps⟩ with ⟨r, tr⟩
    cases r <;> rfl

/-- C2, witness for `c2_dispatch_boundary` at the declared action
`get_self_info` against the concrete capability `sampleCom`. -/
theorem c2_witness :
    (("get_self_info" : String) ∈ declaredActions) ∧
    ((∀ v t, boundCall sampleCom ⟨"get_self_info", []⟩ = (.ok v, t) →
        ApiManager_request sampleCom ⟨"get_self_info", []⟩ =
          (.ok (successEnvelope v), t)) ∧
     (∀ v, (successEnvelope v).dataOf = v) ∧
     (∀ e t, boundCall sampleCom ⟨"get_self_info", []⟩ = (.exn e, t) →
        ApiManager_request sampleCom ⟨"get_self_info", []⟩ =
          (.ok internalErrorEnvelope, t)) ∧
     (boundCall sampleCom ⟨"get_self_info", []⟩).1.isPlain = true ∧
     (ApiManager_request sampleCom ⟨"get_self_info", []⟩).1.isExn = false) :=
  ⟨by decide, c2_dispatch_boundary sampleCom ⟨"get_self_info", []⟩ (by decide)⟩

/-! ## Claim C3 -/

/-- C3, counterexample.  The claim expects `dispatch({action:
"get_self_info"})` against a capability returning `{WxId: "abc",
Name: "Bot"}` to yield a response with `status = ok` and `data` equal
to the mapping `{user_id: "abc", user_name: "Bot",
user_displayname: ""}`.  In fact `ApiManager.request` wraps the
action's own `ActionResponse` in a second envelope: the dispatched
response has status 200 (not the string `"ok"`) and its `data` is the
inner `ActionResponse` object — not a mapping at all. -/
theorem c3_counterexample :
    ApiManager_request getSelfCom ⟨"get_self_info", []⟩ =
      (.ok (.actionResponse (.int 200) none (some "请求成功")
        (.actionResponse (.str "ok") (some 200) none
          (.dict [("user_id", .str "abc"), ("user_name", .str "Bot"),
                  ("user_displayname", .str "")]))),
       [CapCall.get_self_info]) ∧
    (PyVal.actionResponse (.int 200) none (some "请求成功")
      (.actionResponse (.str "ok") (some 200) none
        (.dict [("user_id", .str "abc"), ("user_name", .str "Bot"),
                ("user_displayname", .str "")]))).statusOf.isStrOk = false ∧
    (PyVal.actionResponse (.int 200) none (some "请求成功")
      (.actionResponse (.str "ok") (some 200) none
        (.dict [("user_id", .str "abc"), ("user_name", .str "Bot"),
                ("user_displayname", .str "")]))).dataOf.isDict = false :=
  ⟨rfl, rfl, rfl⟩

/-- C3, amended.  Dispatching `{action: "get_self_info"}` against a
capability whose `get_self_info` returns `{WxId: "abc", Name: "Bot"}`
performs exactly one capability call and yields the 200 success
envelope whose `data` is the action's own `ActionResponse` with
status `"ok"`, retcode 200 and data `{user_id: "abc", user_name:
"Bot", user_displayname: ""}`. -/
theorem c3_amended_get_self_info :
    ApiManager_request getSelfCom ⟨"get_self_info", []⟩ =
      (.ok (successEnvelope (.actionResponse (.str "ok") (some 200) none
        (.dict [("user_id", .str "abc"), ("user_name", .str "Bot"),
                ("user_displayname", .str "")]))),
       [CapCall.get_self_info]) :=
  rfl

/-! ## Claim C4 -/

/-- C4.  The claim says normalization of a registered-type raw
message returns a usable event or `None` and "never raises past its
boundary, even when the handler encounters a malformed structured
(XML) payload".  In fact every registered type raises: `HANDLE_DICT`
holds the raw two-parameter functions (`self`, `msg`), so the
dispatch call `handler(msg)` raises `TypeError` before any handler
body runs — shown at the concrete TEXT-type message `badXmlTextMsg`.
And the boundary installs no exception handling either: even a
correctly bound invocation of the registered TEXT handler propagates
the XML `ParseError` of the malformed `extrainfo` `"<bad"`. -/
theorem c4_registered_type_raises :
    badXmlTextMsg.type ∈ registeredTypes ∧
    handle_message sampleEnv badXmlTextMsg =
      .error (.typeError "positional argument count mismatch") ∧
    handle_text badXmlTextMsg = .error .xmlParseError :=
  ⟨by decide, rfl, rfl⟩

/-! ## Claim C5 -/

/-- C5.  The claim says a text message with more mention markers than
provided identifiers (`N = 2 > M = 1` here) is not failed: the
remainder is kept verbatim as plain text and there is no crash.  Two
defects break it at the concrete overflow message: normalization
raises `TypeError` at the dispatch call (`HANDLE_DICT` holds the raw
two-parameter handler, called with one argument); and even under a
correctly bound invocation, `handle_text` builds the segment list
with the text from the second marker onward (`"@Bob yo"`) preserved
verbatim — but then raises `UnboundLocalError` evaluating
`alt_message=str(message)`, `message` being an unassigned local on
the mention path, so the event is never returned. -/
theorem c5_overflow_preserved_then_crash :
    buildAtMessage (reSplitMention "@Alice hi @Bob yo") ["wx_alice"] =
      [.text "", .mention "wx_alice", .text "hi ", .text "@Bob yo"] ∧
    handle_text msgMentionOverflow = .error (.unboundLocalError "message") ∧
    handle_message sampleEnv msgMentionOverflow =
      .error (.typeError "positional argument count mismatch") :=
  ⟨rfl, rfl, rfl⟩

/-! ## Claim C6 -/

/-- C6, counterexample.  The claim expects the raw message
`{type: TEXT, sender: "123@chatroom", message: "@Alice hello",
extrainfo: "<atuserlist>wx_alice</atuserlist>"}` to normalize to a
group message event whose content is `[mention(wx_alice),
text(" hello")]`.  It normalizes to no event at all: `handle_message`
raises `TypeError` at the dispatch call, the registry holding the raw
two-parameter handler.  Moreover even a correctly bound invocation of
the TEXT handler yields the single segment `text("@Alice hello")` —
`find("./atuserlist")` looks for an `atuserlist` **child** of the
`extrainfo` root, and here the root itself is `atuserlist` — not the
claimed two segments. -/
theorem c6_counterexample :
    handle_message sampleEnv msgScenarioC6 =
      .error (.typeError "positional argument count mismatch") ∧
    producesEvent (handle_message sampleEnv msgScenarioC6) = false ∧
    handle_text msgScenarioC6 =
      .ok (some (.groupMessage 1700000000 "wx_bot" "44"
        [.text "@Alice hello"] "wx_u" "123@chatroom")) ∧
    (([MessageSegment.text "@Alice hello"] : List MessageSegment) ==
      [MessageSegment.mention "wx_alice", MessageSegment.text " hello"]) =
      false :=
  ⟨rfl, rfl, rfl, by decide⟩

/-- C6, amended.  Normalizing the claim's raw message produces no
event: the dispatch call raises `TypeError` because `HANDLE_DICT`
holds the raw two-parameter handler.  Even a correctly bound
invocation of the TEXT handler (`handle_text`) would produce a group
message event (group `123@chatroom`, sender `wx_u`) whose content is
the single segment `text("@Alice hello")` — the bare `atuserlist`
root has no `atuserlist` child — never the claimed mention + text
pair. -/
theorem c6_amended_no_event :
    handle_message sampleEnv msgScenarioC6 =
      .error (.typeError "positional argument count mismatch") ∧
    handle_text msgScenarioC6 =
      .ok (some (.groupMessage 1700000000 "wx_bot" "44"
        [.text "@Alice hello"] "wx_u" "123@chatroom")) :=
  ⟨rfl, rfl⟩

/-! ## Claim C7 -/

/-- C7.  For every raw message whose integer type tag is registered
to no handler in `HANDLE_DICT`, `handle_message` returns `None` (no
event) and does not raise. -/
theorem c7_unregistered_type_no_event (env : Env) (msg : WechatMessage)
    (h : msg.type ∉ registeredTypes) :
    handle_message env msg = .ok none := by
  simp only [registeredTypes, WxType_TEXT_MSG, WxType_IMAGE_MSG, WxType_VOICE_MSG,
    WxType_FRIEND_REQUEST, WxType_CARD_MSG, WxType_VIDEO_MSG, WxType_EMOJI_MSG,
    WxType_LOCATION_MSG, WxType_APP_MSG, WxType_SYSTEM_MSG, WxType_GROUP_SYS_MSG,
    List.mem_cons, List.not_mem_nil, or_false, not_or] at h
  obtain ⟨h1, h2, h3, h4, h5, h6, h7, h8, h9, h10, h11⟩ := h
  have hd : HANDLE_DICT env msg.type = none := by
    simp only [HANDLE_DICT, WxType_TEXT_MSG, WxType_IMAGE_MSG, WxType_VOICE_MSG,
      WxType_FRIEND_REQUEST, WxType_CARD_MSG, WxType_VIDEO_MSG, WxType_EMOJI_MSG,
      WxType_LOCATION_MSG, WxType_APP_MSG, WxType_SYSTEM_MSG, WxType_GROUP_SYS_MSG,
      h1, h2, h3, h4, h5, h6, h7, h8, h9, h10, h11, if_false]
  unfold handle_message
  rw [hd]

/-- C7, witness for `c7_unregistered_type_no_event` at the concrete
type tag 9999. -/
theorem c7_witness :
    (unregisteredMsg.type ∉ registeredTypes) ∧
    handle_message sampleEnv unregisteredMsg = .ok none :=
  ⟨by decide, c7_unregistered_type_no_event sampleEnv unregisteredMsg (by decide)⟩

/-! ## Claim C8 -/

/-- C8.  For every server-accepted connection, if an access-token
secret is configured (non-empty) and the presented bearer token does
not equal it (including an absent or non-bearer header), `_handle_ws`
closes the session with the policy close code 1008 before
registering it: `ws_connect` never runs, the driver's fan-out
connection set is unchanged, and the session therefore never appears
among the fan-out targets. -/
theorem c8_reject_before_open (access_token : String) (hdr : Option String)
    (st : DriverState) (hcfg : access_token ≠ "")
    (htok : get_auth_bearer hdr ≠ some access_token) :
    (∃ reason, handle_ws_start access_token hdr st = (.rejected 1008 reason, st)) ∧
    ((handle_ws_start access_token hdr st).2).connections = st.connections := by
  have hc : check_access_token access_token hdr =
      some { status := 403,
             content := if tokenTruthy (get_auth_bearer hdr) then
                 "Authorization Header is invalid"
               else "Missing Authorization Header" } := by
    unfold check_access_token
    exact if_pos ⟨hcfg, htok⟩
  constructor
  · exact ⟨_, by unfold handle_ws_start; rw [hc]⟩
  · unfold handle_ws_start
    rw [hc]

/-- C8, witness for `c8_reject_before_open` at the concrete secret
`"secret"`, the header `Bearer wrong` and a driver with one live
session. -/
theorem c8_witness :
    (("secret" : String) ≠ "") ∧
    (get_auth_bearer (some "Bearer wrong") ≠ some "secret") ∧
    ((∃ reason, handle_ws_start "secret" (some "Bearer wrong") ⟨[7], 8⟩ =
        (.rejected 1008 reason, ⟨[7], 8⟩)) ∧
     ((handle_ws_start "secret" (some "Bearer wrong") ⟨[7], 8⟩).2).connections =
       ([7] : List Nat)) :=
  ⟨by decide, by decide,
   c8_reject_before_open "secret" (some "Bearer wrong") ⟨[7], 8⟩ (by decide)
     (by decide)⟩

/-! ## Claim C9 -/

/-- C9, counterexample.  The claim says `handle_group_sys` "returns
the first non-None result of the registered group-system handlers
(None when all decline)".  At the concrete well-formed
group-system message `groupSysMsg` it returns nothing at all: the
registered handler is the pre-`classmethod` function `(cls, msg)`, so
the call `handler(msg, xml_obj)` binds the XML element to `msg`, and
the body's `msg.message` raises `AttributeError`, which propagates
out of `handle_group_sys`. -/
theorem c9_counterexample :
    handle_group_sys groupSysMsg = .error (.attributeError "message") :=
  rfl

/-- C9, amended.  `handle_group_sys` never produces any event — for
every raw message it either raises (`ParseError` on a malformed
payload, otherwise the registered handler's `AttributeError`) or
returns `None`; in particular the recall/delete branch after its
early `return` is unreachable and no `GroupMessageDeleteEvent` or
`PrivateMessageDeleteEvent` is ever produced. -/
theorem c9_no_event_from_group_sys (msg : WechatMessage) :
    producesEvent (handle_group_sys msg) = false := by
  unfold handle_group_sys
  cases hp : ET_fromstring msg.message
  · rfl
  · rfl

/-! ## Claim C10 -/

/-- C10.  When no access-token secret is configured (the configured
token is the empty string), `_check_access_token` accepts every
connection: for any two requests with arbitrary (different or
missing) Authorization headers the check returns no rejection
response, and its outcome is identical for both. -/
theorem c10_no_secret_accepts_all (hdr1 hdr2 : Option String) :
    check_access_token "" hdr1 = none ∧
    check_access_token "" hdr1 = check_access_token "" hdr2 := by
  constructor
  · unfold check_access_token
    simp
  · unfold check_access_token
    simp
